import Mathlib

/-!
Shallow embedding of the AbsaOSS release-notes-presence-check action.

The embedded code is `ReleaseNotesPresenceCheckAction` from
`src/release_notes_presence_check/release_notes_presence_check_action.py`:
its `run` method (the release-notes validator over a fetched pull-request
payload) and its `__validate_inputs` method together with the input parsing
done in `__init__`.  Python strings become Lean `String`, Python lists become
Lean `List`, the JSON payload fields that the code reads become explicit
structures, and code that can raise an exception returns `Option`.

The Python standard-library regular-expression engine is external to the
repository; `re.search(pattern, text)` for the configurable title pattern is
therefore modelled as an abstract boolean search function `r : String →
String → Bool` (pattern, text ↦ a match exists), passed as a parameter.  The
one hard-coded regular expression in the source, the placeholder pattern
`^\s*[-+*]\s*([A-Za-z0-9_]+)` applied with `re.match`, is implemented
concretely below (`bulletToken`): because whitespace, bullet markers and word
characters are pairwise disjoint character classes, the greedy left-to-right
reading implemented here is exactly the regular expression's semantics.
-/

/-- The characters Python's `str.strip` and the regex class matched by a
backslash-s remove, restricted to the ASCII range (the source only ever
handles ASCII whitespace in the scenarios of interest). -/
def pyIsSpace (c : Char) : Bool :=
  c == ' ' || c == '\t' || c == '\n' || c == '\r' || c == '\x0b' || c == '\x0c'

/-- Strip leading and trailing whitespace from a character list, as Python's
`str.strip()` does. -/
def pyStripList (cs : List Char) : List Char :=
  ((cs.dropWhile pyIsSpace).reverse.dropWhile pyIsSpace).reverse

/-- Python `s.strip()`. -/
def pyStrip (s : String) : String :=
  ⟨pyStripList s.data⟩

/-- Split a character list on every occurrence of a separator character;
`splitOnChar sep cs` has the semantics of Python's `str.split(sep)` for a
one-character separator (in particular the empty string yields one empty
field, and adjacent separators yield empty fields). -/
def splitOnChar (sep : Char) : List Char → List (List Char)
  | [] => [[]]
  | c :: cs =>
    if c == sep then
      [] :: splitOnChar sep cs
    else
      match splitOnChar sep cs with
      | [] => [[c]]
      | l :: ls => (c :: l) :: ls

/-- Python `s.split(sep)` for a one-character separator. -/
def pySplit (sep : Char) (s : String) : List String :=
  (splitOnChar sep s.data).map (fun cs => ⟨cs⟩)

/-- Python `"\n".join(lines)`. -/
def pyJoinNl (lines : List String) : String :=
  ⟨List.intercalate ['\n'] (lines.map String.data)⟩

/-- The character class `[A-Za-z0-9_]` of the placeholder regular
expression. -/
def isWordChar (c : Char) : Bool :=
  c.isAlpha || c.isDigit || c == '_'

/-- Python `re.match(r"^\s*[-+*]\s*([A-Za-z0-9_]+)", s)`, returning the
capture group when the anchored pattern matches: skip leading whitespace,
require one bullet marker, skip whitespace, then capture a non-empty maximal
run of word characters. -/
def bulletToken (s : String) : Option String :=
  match s.data.dropWhile pyIsSpace with
  | [] => none
  | c :: rest =>
    if c == '-' || c == '+' || c == '*' then
      match (rest.dropWhile pyIsSpace).takeWhile isWordChar with
      | [] => none
      | tok => some ⟨tok⟩
    else none

/-- Python `s.strip().startswith(("-", "+", "*"))`. -/
def startsWithBullet (s : String) : Bool :=
  match (pyStrip s).data with
  | [] => false
  | c :: _ => c == '-' || c == '+' || c == '*'

/-- One element of the JSON `labels` array of the pull-request payload: an
object whose `name` key may be absent (`none`). -/
structure Label where
  name : Option String
deriving DecidableEq

/-- The JSON `body` field of the pull-request payload: the key may be absent,
hold JSON `null`, or hold a string. -/
inductive BodyField
  | absent
  | null
  | str (s : String)
deriving DecidableEq

/-- The part of the fetched pull-request payload that `run` reads. -/
structure PrData where
  labels : List Label
  body : BodyField
deriving DecidableEq

/-- The configuration fields that `run` reads: `self.title` (the regular
expression source text), `self.skip_labels` and `self.skip_placeholders`.
The Python placeholder set is modelled as a list; only membership is ever
used. -/
structure Config where
  title : String
  skip_labels : List String
  skip_placeholders : List String
deriving DecidableEq

/-- Python `label.get("name", "")`. -/
def getName (l : Label) : String :=
  l.name.getD ""

/-- The skip short-circuit message the source interpolates the matched label
into. -/
def skipMessage (lab : String) : String :=
  "Skipping release notes check because '" ++ lab ++ "' label is present."

/-- The list comprehension filtering blank lines out of the body:
`[line for line in pr_body.split("\n") if line.strip()]`. -/
def filterBlankLines (body : String) : List String :=
  (pySplit '\n' body).filter (fun line => (pyStrip line).length != 0)

/-- `pr_body_filtered` of the source: the blank-line-filtered body re-joined
with newlines. -/
def prBodyFiltered (body : String) : String :=
  pyJoinNl (filterBlankLines body)

/-- `lines = pr_body_filtered.split("\n")` of the source. -/
def filteredLines (body : String) : List String :=
  pySplit '\n' (prBodyFiltered body)

/-- The loop locating the release-notes tag: the first line (in order) on
which `re.search(title, line)` succeeds sets `release_notes_start_index` to
its index plus one and breaks; if no line matches the index stays `None`. -/
def tagStartIndex (r : String → String → Bool) (title : String)
    (lines : List String) : Option Nat :=
  (lines.findIdx? (fun line => r title line)).map (fun i => i + 1)

/-- The placeholder check on the first line below the tag, and the final
success return. -/
def placeholderStage (cfg : Config) (first : String) : Bool × String :=
  match bulletToken first with
  | some tok =>
    if cfg.skip_placeholders.contains tok then
      (false, "Error: Placeholder release notes found. Replace template values.")
    else
      (true, "Release Notes detected.")
  | none => (true, "Release Notes detected.")

/-- The bullet-list structural check on `text_below_release_notes`. -/
def bulletStage (cfg : Config) (below : List String) : Bool × String :=
  match below with
  | [] => (false, "Error: No bullet list found directly under release notes tag.")
  | first :: _ =>
    if !(startsWithBullet first) then
      (false, "Error: No bullet list found directly under release notes tag.")
    else
      placeholderStage cfg first

/-- The tag-line location and content-after-tag checks, followed by the
bullet stage, all over the blank-line-filtered body. -/
def afterTagStage (r : String → String → Bool) (cfg : Config)
    (body : String) : Bool × String :=
  match tagStartIndex r cfg.title (filteredLines body) with
  | none => (false, "Error: No content found after the release notes tag.")
  | some idx =>
    if (filteredLines body).length ≤ idx then
      (false, "Error: No content found after the release notes tag.")
    else
      bulletStage cfg ((filteredLines body).drop idx)

/-- The checks on the body text once `pr_body` is a string: the empty-body
check (`len(pr_body.strip()) == 0`), the raw-body tag-presence check
(`re.search(self.title, pr_body)`), then the filtered-line stages. -/
def textStage (r : String → String → Bool) (cfg : Config)
    (body : String) : Bool × String :=
  if (pyStrip body).length == 0 then
    (false, "Error: Pull request description is empty.")
  else if !(r cfg.title body) then
    (false, "Error: Release notes title '" ++ cfg.title ++ "' not found in pull request body.")
  else
    afterTagStage r cfg body

/-- `pr_body = pr_data.get("body", "")` followed by the body checks.  An
absent key defaults to the empty string; a JSON `null` makes `pr_body` the
Python `None`, on which the very next call `pr_body.strip()` raises
`AttributeError` — modelled as `none`. -/
def bodyStage (r : String → String → Bool) (cfg : Config)
    (body : BodyField) : Option (Bool × String) :=
  match body with
  | .null => none
  | .absent => some (textStage r cfg "")
  | .str s => some (textStage r cfg s)

/-- `ReleaseNotesPresenceCheckAction.run`, after the payload has been
fetched: the skip-label loop (first label contained in `skip_labels` returns
the skip message), then the body checks.  `r` stands for `re.search` on the
configured title pattern. -/
def run (r : String → String → Bool) (cfg : Config) (pr : PrData) :
    Option (Bool × String) :=
  match (pr.labels.map getName).find? (fun lab => cfg.skip_labels.contains lab) with
  | some lab => some (true, skipMessage lab)
  | none => bodyStage r cfg pr.body

/-- The ASCII decimal digits, the characters `int()` accepts and the core of
`str.isdigit()` (the model restricts `isdigit` to ASCII). -/
def pyIsDigitChar (c : Char) : Bool :=
  '0' ≤ c && c ≤ '9'

/-- Python `s.isdigit()` over ASCII: non-empty and all digits. -/
def pyIsdigit (s : String) : Bool :=
  !s.data.isEmpty && s.data.all pyIsDigitChar

/-- The value of Python `int(s)` on a string of ASCII decimal digits. -/
def parsedInt (s : String) : Nat :=
  s.data.foldl (fun n c => 10 * n + (c.toNat - '0'.toNat)) 0

/-- The two `__validate_inputs` checks on `INPUT_PR_NUMBER`: the value passes
them (contributes no error) exactly when its length is non-zero and
`isdigit()` holds. -/
def prNumberAccepted (s : String) : Bool :=
  !(s.length == 0) && pyIsdigit s

/-- Python `value.count("/")` for the one-character separator. -/
def countSlash (s : String) : Nat :=
  (s.data.filter (fun c => c == '/')).length

/-- The environment-variable inputs `__init__` and `__validate_inputs` read,
after `get_action_input` has applied its defaults. -/
structure Env where
  github_token : String
  pr_number : String
  github_repository : String
  location : String
  title : String
  skip_labels_raw : String
  skip_placeholders_raw : String

/-- `__validate_inputs`: `true` when `error_detected` ends up set (the run is
then aborted by `set_action_failed`).  Every check runs; the result is the
disjunction of all of them, mirroring the source's accumulation. -/
def validateInputs (e : Env) : Bool :=
  (e.github_token.length == 0) ||
  (e.pr_number.length == 0) ||
  (!pyIsdigit e.pr_number) ||
  (e.github_repository.length == 0) ||
  (if countSlash e.github_repository != 1 then
     true
   else
     ((pySplit '/' e.github_repository).getD 0 "").length == 0 ||
     ((pySplit '/' e.github_repository).getD 1 "").length == 0) ||
  (e.location.length == 0) ||
  (!(["body"].contains e.location)) ||
  (e.title.length == 0)

/-- `self.skip_labels = get_action_input("SKIP_LABELS", default="").split(",")`. -/
def parseSkipLabels (s : String) : List String :=
  pySplit ',' s

/-- The `skip_placeholders` set comprehension: strip each comma-separated
piece and keep the non-empty ones (membership in the Python set equals
membership in this list). -/
def parseSkipPlaceholders (s : String) : List String :=
  ((pySplit ',' s).map pyStrip).filter (fun p => (pyStrip p).length != 0)

/-- The configuration `__init__` assembles from the inputs. -/
def configOf (e : Env) : Config :=
  { title := e.title
    skip_labels := parseSkipLabels e.skip_labels_raw
    skip_placeholders := parseSkipPlaceholders e.skip_placeholders_raw }

/-- The whole action as driven by `main.py`: `__init__` validates the inputs
and aborts on failure (outer `none`) before the `GitHubRepository` gateway is
ever constructed; otherwise `run` is invoked on the fetched payload.  The
gateway fetch is the external function `fetch`. -/
def mainAction (r : String → String → Bool) (e : Env)
    (fetch : Unit → PrData) : Option (Option (Bool × String)) :=
  if validateInputs e then none else some (run r (configOf e) (fetch ()))

/-- Plain substring search: a valid instantiation of `re.search` for a
pattern without metacharacters; used to build concrete scenarios. -/
def rSub (pat s : String) : Bool :=
  s.data.tails.any (fun t => pat.data.isPrefixOf t)

/-! ## Helper lemmas shared by the claim proofs -/

/-- Helper: when the predicate is false on every element, the first-match
loop over the labels finds nothing. -/
theorem find?_eq_none_of_all {α : Type} (p : α → Bool) (l : List α)
    (h : ∀ x ∈ l, p x = false) : l.find? p = none :=
  List.find?_eq_none.mpr (fun x hx => by simp [h x hx])

/-- Helper: when some element satisfies the predicate, the first-match loop
returns an element that satisfies it. -/
theorem find?_first_of_mem {α : Type} (p : α → Bool) (l : List α) (x : α)
    (hx : x ∈ l) (hp : p x = true) :
    ∃ a, l.find? p = some a ∧ p a = true ∧ a ∈ l := by
  cases hfind : l.find? p with
  | none => exact absurd (List.find?_eq_none.mp hfind x hx) (by simp [hp])
  | some a => exact ⟨a, rfl, List.find?_some hfind, List.mem_of_find?_eq_some hfind⟩

/-- Helper: a non-empty string has non-zero length. -/
theorem length_beq_zero_eq_false {s : String} (h : s ≠ "") :
    (s.length == 0) = false := by
  cases s with
  | mk data =>
    cases data with
    | nil => exact absurd rfl h
    | cons c cs => rfl

/-- Helper: with no matching skip label and a string body, `run` reduces to
the body-text checks. -/
theorem run_eq_textStage (r : String → String → Bool) (cfg : Config)
    (pr : PrData) (b : String)
    (hskip : ∀ lab ∈ pr.labels.map getName, cfg.skip_labels.contains lab = false)
    (hbody : pr.body = BodyField.str b) :
    run r cfg pr = some (textStage r cfg b) := by
  have hfind : (pr.labels.map getName).find?
      (fun lab => cfg.skip_labels.contains lab) = none :=
    find?_eq_none_of_all _ _ hskip
  unfold run
  rw [hfind, hbody]
  rfl

/-- Helper: a non-blank body whose raw text matches the title pattern passes
the first two body checks. -/
theorem textStage_eq_afterTag (r : String → String → Bool) (cfg : Config)
    (b : String) (hnb : pyStrip b ≠ "") (htag : r cfg.title b = true) :
    textStage r cfg b = afterTagStage r cfg b := by
  simp [textStage, length_beq_zero_eq_false hnb, htag]

/-- Helper: the placeholder stage never produces the bullet-check failure
message. -/
theorem placeholderStage_ne_bullet_fail (cfg : Config) (first : String) :
    placeholderStage cfg first ≠
      (false, "Error: No bullet list found directly under release notes tag.") := by
  cases hbt : bulletToken first with
  | none =>
    simp only [placeholderStage, hbt]
    decide
  | some tok =>
    by_cases h : cfg.skip_placeholders.contains tok = true
    · simp only [placeholderStage, hbt, if_pos h]
      decide
    · simp only [placeholderStage, hbt, if_neg h]
      decide

/-! ## Claim theorems -/

/-- Claim C1: for every configuration and pull-request snapshot, if some
label name of the snapshot is a member (exact, case-sensitive string
equality) of the configured skip labels, `run` returns the Pass verdict with
the skip message for a matching label, regardless of the body — the body is
arbitrary here, including empty, tag-free, or even a JSON null that would
otherwise raise; the skip check is evaluated before any inspection of the
body. -/
theorem run_skip_label_short_circuit (r : String → String → Bool)
    (cfg : Config) (pr : PrData)
    (h : ∃ lab ∈ pr.labels.map getName, cfg.skip_labels.contains lab = true) :
    ∃ lab, lab ∈ pr.labels.map getName ∧ cfg.skip_labels.contains lab = true ∧
      run r cfg pr = some (true, skipMessage lab) := by
  obtain ⟨x, hx, hpx⟩ := h
  obtain ⟨a, hfind, hpa, hmem⟩ := find?_first_of_mem
    (fun lab => cfg.skip_labels.contains lab) _ x hx hpx
  refine ⟨a, hmem, hpa, ?_⟩
  unfold run
  rw [hfind]

/-- Claim C4: for every snapshot with no matching skip label, a body that is
absent (defaulted to the empty string) or blank after stripping makes `run`
return the empty-description failure; no later check contributes to the
verdict. -/
theorem run_empty_body (r : String → String → Bool) (cfg : Config)
    (pr : PrData)
    (hskip : ∀ lab ∈ pr.labels.map getName, cfg.skip_labels.contains lab = false)
    (hbody : pr.body = BodyField.absent ∨
             ∃ s, pr.body = BodyField.str s ∧ pyStrip s = "") :
    run r cfg pr = some (false, "Error: Pull request description is empty.") := by
  have hfind : (pr.labels.map getName).find?
      (fun lab => cfg.skip_labels.contains lab) = none :=
    find?_eq_none_of_all _ _ hskip
  unfold run
  rw [hfind]
  rcases hbody with h | ⟨s, hs, hstrip⟩
  · rw [h]
    rfl
  · rw [hs]
    show some (textStage r cfg s) = _
    unfold textStage
    rw [hstrip]
    rfl

/-- Claim C5: for every snapshot with no matching skip label and a non-blank
body, the tag-presence check searches the title pattern in the raw body: no
match yields the title-not-found failure, and a match passes control to the
line-location stage over the filtered body. -/
theorem run_tag_presence (r : String → String → Bool) (cfg : Config)
    (pr : PrData) (b : String)
    (hskip : ∀ lab ∈ pr.labels.map getName, cfg.skip_labels.contains lab = false)
    (hbody : pr.body = BodyField.str b)
    (hnb : pyStrip b ≠ "") :
    run r cfg pr =
      (if r cfg.title b then some (afterTagStage r cfg b)
       else some (false, "Error: Release notes title '" ++ cfg.title ++
         "' not found in pull request body.")) := by
  rw [run_eq_textStage r cfg pr b hskip hbody]
  unfold textStage
  rw [if_neg (by simp [length_beq_zero_eq_false hnb])]
  by_cases ht : r cfg.title b = true
  · rw [if_pos ht, if_neg (by simp [ht])]
  · rw [if_pos (by simp [Bool.eq_false_iff.mpr ht] : (!r cfg.title b) = true),
        if_neg ht]

/-- Claim C10: `run` is not total over the advertised payload shape: a
payload carrying the `body` key with JSON null, under no matching skip
label, raises (calling `strip` on `None`) instead of returning a verdict —
modelled as the `none` outcome; only an absent `body` key is defaulted to
the empty string. -/
theorem run_null_body_raises (r : String → String → Bool) (cfg : Config)
    (pr : PrData)
    (hskip : ∀ lab ∈ pr.labels.map getName, cfg.skip_labels.contains lab = false)
    (hb : pr.body = BodyField.null) :
    run r cfg pr = none := by
  have hfind : (pr.labels.map getName).find?
      (fun lab => cfg.skip_labels.contains lab) = none :=
    find?_eq_none_of_all _ _ hskip
  unfold run
  rw [hfind, hb]
  rfl

/-- Claim C2: when the raw body matches the title pattern but either no
single blank-line-filtered line matches it, or the first matching filtered
line is the last one, `run` fails with the no-content message.  In
particular a raw-body match that no individual filtered line reproduces
(such as one spanning a removed blank stretch) lands here. -/
theorem run_no_content_after_tag (r : String → String → Bool) (cfg : Config)
    (pr : PrData) (b : String)
    (hskip : ∀ lab ∈ pr.labels.map getName, cfg.skip_labels.contains lab = false)
    (hbody : pr.body = BodyField.str b)
    (hnb : pyStrip b ≠ "")
    (htag : r cfg.title b = true)
    (hloc : (filteredLines b).findIdx? (fun line => r cfg.title line) = none ∨
            ∃ i, (filteredLines b).findIdx? (fun line => r cfg.title line) = some i ∧
                 (filteredLines b).length ≤ i + 1) :
    run r cfg pr =
      some (false, "Error: No content found after the release notes tag.") := by
  rw [run_eq_textStage r cfg pr b hskip hbody,
      textStage_eq_afterTag r cfg b hnb htag]
  unfold afterTagStage tagStartIndex
  rcases hloc with h | ⟨i, hi, hlen⟩
  · rw [h]
    rfl
  · rw [hi]
    show some (if (filteredLines b).length ≤ i + 1 then _ else _) = _
    rw [if_pos hlen]

/-- Claim C3: with no matching skip label, a non-blank body matching the
title pattern, and a filtered line matching the pattern that is not last,
the verdict is the bullet-list failure exactly when the first filtered line
after the tag line does not begin (after stripping) with a `-`, `+` or `*`
bullet marker. -/
theorem run_bullet_structural_iff (r : String → String → Bool) (cfg : Config)
    (pr : PrData) (b : String) (i : Nat) (first : String) (rest : List String)
    (hskip : ∀ lab ∈ pr.labels.map getName, cfg.skip_labels.contains lab = false)
    (hbody : pr.body = BodyField.str b)
    (hnb : pyStrip b ≠ "")
    (htag : r cfg.title b = true)
    (hidx : (filteredLines b).findIdx? (fun line => r cfg.title line) = some i)
    (hdrop : (filteredLines b).drop (i + 1) = first :: rest) :
    (run r cfg pr =
        some (false, "Error: No bullet list found directly under release notes tag.") ↔
      startsWithBullet first = false) := by
  have hlt : ¬ ((filteredLines b).length ≤ i + 1) := by
    intro hle
    rw [List.drop_eq_nil_of_le hle] at hdrop
    cases hdrop
  rw [run_eq_textStage r cfg pr b hskip hbody,
      textStage_eq_afterTag r cfg b hnb htag]
  unfold afterTagStage tagStartIndex
  rw [hidx]
  show (some (if (filteredLines b).length ≤ i + 1 then _ else _) = _) ↔ _
  rw [if_neg hlt, hdrop]
  cases hb : startsWithBullet first
  · rw [show bulletStage cfg (first :: rest) =
        (false, "Error: No bullet list found directly under release notes tag.") by
        simp [bulletStage, hb]]
    simp
  · rw [show bulletStage cfg (first :: rest) = placeholderStage cfg first by
        simp [bulletStage, hb]]
    constructor
    · intro he
      exact absurd (Option.some.inj he) (placeholderStage_ne_bullet_fail cfg first)
    · intro hfalse
      exact absurd hfalse (by simp [hb])

/-- Claim C6: once the first filtered line below the tag passes the
structural bullet check, the verdict is the placeholder failure exactly when
the single anchored regex captures a word token that is a member of the
configured placeholders; when the token is absent from the set, when no
token exists, or when the set is empty, the verdict is the success Pass. -/
theorem run_placeholder_rejection (r : String → String → Bool) (cfg : Config)
    (pr : PrData) (b : String) (i : Nat) (first : String) (rest : List String)
    (hskip : ∀ lab ∈ pr.labels.map getName, cfg.skip_labels.contains lab = false)
    (hbody : pr.body = BodyField.str b)
    (hnb : pyStrip b ≠ "")
    (htag : r cfg.title b = true)
    (hidx : (filteredLines b).findIdx? (fun line => r cfg.title line) = some i)
    (hdrop : (filteredLines b).drop (i + 1) = first :: rest)
    (hbul : startsWithBullet first = true) :
    run r cfg pr = some (
      match bulletToken first with
      | some tok =>
        if cfg.skip_placeholders.contains tok then
          (false, "Error: Placeholder release notes found. Replace template values.")
        else
          (true, "Release Notes detected.")
      | none => (true, "Release Notes detected.")) := by
  have hlt : ¬ ((filteredLines b).length ≤ i + 1) := by
    intro hle
    rw [List.drop_eq_nil_of_le hle] at hdrop
    cases hdrop
  rw [run_eq_textStage r cfg pr b hskip hbody,
      textStage_eq_afterTag r cfg b hnb htag]
  unfold afterTagStage tagStartIndex
  rw [hidx]
  show some (if (filteredLines b).length ≤ i + 1 then _ else _) = _
  rw [if_neg hlt, hdrop,
      show bulletStage cfg (first :: rest) = placeholderStage cfg first by
        simp [bulletStage, hbul]]
  rfl

/-- Claim C8: the validator is deterministic — two evaluations on equal
configurations and equal snapshots produce the same verdict, with no hidden
state between calls (`run` is a pure function of its arguments). -/
theorem run_deterministic (r : String → String → Bool) (cfg₁ cfg₂ : Config)
    (pr₁ pr₂ : PrData) (hc : cfg₁ = cfg₂) (hp : pr₁ = pr₂) :
    run r cfg₁ pr₁ = run r cfg₂ pr₂ := by
  rw [hc, hp]

/-- Claim C9: an empty SKIP_LABELS input parses to the one-element list
holding the empty string, so any label object whose name is the empty
string, or that lacks a name key entirely, makes `run` take the skip
short-circuit and return Pass (with the empty label interpolated) without
examining the body. -/
theorem skip_labels_empty_gives_empty_label (r : String → String → Bool)
    (cfg : Config) (pr : PrData)
    (hcfg : cfg.skip_labels = parseSkipLabels "")
    (hl : ∃ l ∈ pr.labels, l.name = none ∨ l.name = some "") :
    parseSkipLabels "" = [""] ∧ run r cfg pr = some (true, skipMessage "") := by
  have hparse : parseSkipLabels "" = [""] := by decide
  refine ⟨hparse, ?_⟩
  obtain ⟨l, hmem, hname⟩ := hl
  have hget : getName l = "" := by
    rcases hname with h | h <;> simp [getName, h]
  have hx : "" ∈ pr.labels.map getName := by
    rw [← hget]
    exact List.mem_map_of_mem getName hmem
  have hp : cfg.skip_labels.contains "" = true := by
    rw [hcfg, hparse]
    decide
  obtain ⟨a, hfind, hpa, hamem⟩ := find?_first_of_mem
    (fun lab => cfg.skip_labels.contains lab) _ "" hx hp
  have ha : a = "" := by
    rw [hcfg, hparse] at hpa
    simpa using hpa
  unfold run
  rw [hfind, ha]

/-- Helper: the `__validate_inputs` acceptance condition for the PR number
is exactly non-emptiness plus all-digits. -/
theorem prNumberAccepted_iff (s : String) :
    prNumberAccepted s = true ↔
      (s ≠ "" ∧ ∀ c ∈ s.data, pyIsDigitChar c = true) := by
  cases s with
  | mk data =>
    have hmk : ∀ l : List Char, (String.mk l ≠ "") ↔ l ≠ [] := by
      intro l
      constructor
      · intro h hl
        exact h (by rw [hl])
      · intro h he
        exact h (congrArg String.data he)
    cases data with
    | nil =>
      simp [prNumberAccepted, pyIsdigit, String.length, hmk]
    | cons c cs =>
      simp [prNumberAccepted, pyIsdigit, String.length, hmk, List.all_eq_true]

/-- Claim C7 (amended): configuration validation accepts the PR number input
exactly when it is a non-empty, digits-only string — a nonnegative integer,
with the all-zero string (denoting zero) accepted as well; any other value
sets the validation error, and the whole action then aborts before the
gateway fetch is consulted (its result cannot influence the outcome). -/
theorem prNumber_validation (r : String → String → Bool) (e : Env)
    (f g : Unit → PrData) :
    (prNumberAccepted e.pr_number = true ↔
        (e.pr_number ≠ "" ∧ ∀ c ∈ e.pr_number.data, pyIsDigitChar c = true)) ∧
    (prNumberAccepted e.pr_number = false →
        validateInputs e = true ∧ mainAction r e f = none ∧
        mainAction r e f = mainAction r e g) := by
  refine ⟨prNumberAccepted_iff e.pr_number, fun hbad => ?_⟩
  have hval : validateInputs e = true := by
    by_cases hl : (e.pr_number.length == 0) = true
    · simp [validateInputs, hl]
    · have hl' : (e.pr_number.length == 0) = false := by
        simpa using hl
      have hdig : pyIsdigit e.pr_number = false := by
        unfold prNumberAccepted at hbad
        rw [hl'] at hbad
        simpa using hbad
      simp [validateInputs, hdig]
  refine ⟨hval, ?_, ?_⟩
  · simp [mainAction, hval]
  · simp [mainAction, hval]

/-- Claim C7, counterexample to the original statement: the input string of
a single zero digit is non-empty and digits-only but denotes zero, not a
positive integer, yet validation raises no error on a fully valid
environment carrying it — the PR number check accepts it. -/
theorem prNumber_positive_counterexample :
    validateInputs
      { github_token := "t", pr_number := "0",
        github_repository := "owner/repo", location := "body",
        title := "[Rr]elease [Nn]otes:", skip_labels_raw := "",
        skip_placeholders_raw := "" } = false ∧
    prNumberAccepted "0" = true ∧ ¬ (0 < parsedInt "0") := by
  decide

/-! ## Concrete scenarios and witnesses -/

/-- Default-style configuration with one skip label. -/
def cfgSkip : Config :=
  { title := "Release Notes:", skip_labels := ["skip-notes"],
    skip_placeholders := [] }

/-- Configuration with no skip labels and no placeholders. -/
def cfgPlain : Config :=
  { title := "Release Notes:", skip_labels := [], skip_placeholders := [] }

/-- Configuration rejecting the TODO placeholder. -/
def cfgTodo : Config :=
  { title := "Release Notes:", skip_labels := [],
    skip_placeholders := ["TODO"] }

/-- Configuration whose skip labels come from an empty SKIP_LABELS input. -/
def cfgEmptySkip : Config :=
  { title := "Release Notes:", skip_labels := parseSkipLabels "",
    skip_placeholders := [] }

/-- Snapshot carrying the skip label and an empty body. -/
def prSkip : PrData :=
  { labels := [{ name := some "skip-notes" }], body := BodyField.str "" }

/-- Snapshot whose body is exactly the tag with nothing after it. -/
def prTagOnly : PrData :=
  { labels := [], body := BodyField.str "Release Notes:" }

/-- Snapshot of the order-sensitivity scenario: a blank line then prose
before the bullet. -/
def prProse : PrData :=
  { labels := [], body := BodyField.str "Release Notes:\n\nFoo\n- item" }

/-- Snapshot with an unrelated label and an empty body. -/
def prEmptyBody : PrData :=
  { labels := [{ name := some "bug" }], body := BodyField.str "" }

/-- Snapshot whose body never mentions the tag. -/
def prNoTag : PrData :=
  { labels := [], body := BodyField.str "No release notes in sight." }

/-- Snapshot with an unedited TODO placeholder bullet. -/
def prTodo : PrData :=
  { labels := [], body := BodyField.str "Release Notes:\n- TODO fill this in" }

/-- Snapshot carrying a label object without a name key. -/
def prNameless : PrData :=
  { labels := [{ name := none }], body := BodyField.str "Release Notes:\n- item" }

/-- Snapshot whose body key holds JSON null. -/
def prNullBody : PrData :=
  { labels := [], body := BodyField.null }

/-- Environment with an empty PR number and otherwise valid inputs. -/
def envNoPr : Env :=
  { github_token := "t", pr_number := "", github_repository := "owner/repo",
    location := "body", title := "[Rr]elease [Nn]otes:",
    skip_labels_raw := "", skip_placeholders_raw := "" }

/-- A constant gateway stub. -/
def fetchStub : Unit → PrData := fun _ => prTagOnly

/-- Witness for claim C1: the skip label wins even over an empty body. -/
theorem run_skip_label_short_circuit_witness :
    ∃ lab, lab ∈ prSkip.labels.map getName ∧
      cfgSkip.skip_labels.contains lab = true ∧
      run rSub cfgSkip prSkip = some (true, skipMessage lab) :=
  run_skip_label_short_circuit rSub cfgSkip prSkip
    ⟨"skip-notes", by decide, by decide⟩

/-- Witness for claim C2: a body that is only the tag line fails with the
no-content message. -/
theorem run_no_content_after_tag_witness :
    run rSub cfgPlain prTagOnly =
      some (false, "Error: No content found after the release notes tag.") :=
  run_no_content_after_tag rSub cfgPlain prTagOnly "Release Notes:"
    (by decide) rfl (by decide) (by decide) (Or.inr ⟨0, by decide, by decide⟩)

/-- Witness for claim C3: after filtering, the line following the tag is the
prose line, so the bullet check fails. -/
theorem run_bullet_structural_iff_witness :
    (run rSub cfgPlain prProse =
        some (false, "Error: No bullet list found directly under release notes tag.") ↔
      startsWithBullet "Foo" = false) :=
  run_bullet_structural_iff rSub cfgPlain prProse
    "Release Notes:\n\nFoo\n- item" 0 "Foo" ["- item"]
    (by decide) rfl (by decide) (by decide) (by decide) (by decide)

/-- Witness for claim C4: an empty body with an unrelated label fails with
the empty-description message. -/
theorem run_empty_body_witness :
    run rSub cfgPlain prEmptyBody =
      some (false, "Error: Pull request description is empty.") :=
  run_empty_body rSub cfgPlain prEmptyBody (by decide)
    (Or.inr ⟨"", rfl, by decide⟩)

/-- Witness for claim C5: a body without the tag takes the title-not-found
branch. -/
theorem run_tag_presence_witness :
    run rSub cfgPlain prNoTag =
      (if rSub cfgPlain.title "No release notes in sight." then
        some (afterTagStage rSub cfgPlain "No release notes in sight.")
       else some (false, "Error: Release notes title '" ++ cfgPlain.title ++
         "' not found in pull request body.")) :=
  run_tag_presence rSub cfgPlain prNoTag "No release notes in sight."
    (by decide) rfl (by decide)

/-- Witness for claim C6: the TODO bullet token is in the placeholder set,
so the verdict follows the placeholder case analysis. -/
theorem run_placeholder_rejection_witness :
    run rSub cfgTodo prTodo = some (
      match bulletToken "- TODO fill this in" with
      | some tok =>
        if cfgTodo.skip_placeholders.contains tok then
          (false, "Error: Placeholder release notes found. Replace template values.")
        else
          (true, "Release Notes detected.")
      | none => (true, "Release Notes detected.")) :=
  run_placeholder_rejection rSub cfgTodo prTodo
    "Release Notes:\n- TODO fill this in" 0 "- TODO fill this in" []
    (by decide) rfl (by decide) (by decide) (by decide) (by decide) (by decide)

/-- Witness for claim C7 (amended): the empty PR number is rejected and the
action aborts independently of the gateway. -/
theorem prNumber_validation_witness :
    (prNumberAccepted envNoPr.pr_number = true ↔
        (envNoPr.pr_number ≠ "" ∧
          ∀ c ∈ envNoPr.pr_number.data, pyIsDigitChar c = true)) ∧
    (prNumberAccepted envNoPr.pr_number = false →
        validateInputs envNoPr = true ∧
        mainAction rSub envNoPr fetchStub = none ∧
        mainAction rSub envNoPr fetchStub = mainAction rSub envNoPr fetchStub) :=
  prNumber_validation rSub envNoPr fetchStub fetchStub

/-- Witness for claim C8: determinism at a concrete configuration and
snapshot. -/
theorem run_deterministic_witness :
    run rSub cfgSkip prSkip = run rSub cfgSkip prSkip :=
  run_deterministic rSub cfgSkip cfgSkip prSkip prSkip rfl rfl

/-- Witness for claim C9: a nameless label under an empty SKIP_LABELS input
short-circuits to Pass. -/
theorem skip_labels_empty_gives_empty_label_witness :
    parseSkipLabels "" = [""] ∧
      run rSub cfgEmptySkip prNameless = some (true, skipMessage "") :=
  skip_labels_empty_gives_empty_label rSub cfgEmptySkip prNameless rfl
    ⟨{ name := none }, by decide, Or.inl rfl⟩

/-- Witness for claim C10: the null body raises instead of producing a
verdict. -/
theorem run_null_body_raises_witness :
    run rSub cfgPlain prNullBody = none :=
  run_null_body_raises rSub cfgPlain prNullBody (by decide) rfl
